import Mathlib

/-
Verification of the permit-analysis dashboard (`main.py`).

The development shallowly embeds the parts of `main.py` that the checked
properties concern: the credential functions (`register_user`,
`authenticate`), the per-record derived columns (`Closed`, `Status`), the
date and department filters, the customized summary (pivot) table with its
TOTAL row and column selection, and the plantwise filtering rules.

A pandas cell that can be missing (NaN/NaT) is an `Option`; pandas string
methods under `.str` return NaN on missing input, and every comparison or
predicate used by the code turns that NaN into `false` (`== "CLOSED"` on
NaN, `na=False` on the matchers), which the embedding reflects by returning
`false` on `none`.

Strings are embedded with explicitly recursive character-list operations
(upper-casing, trimming, prefix and substring tests) so that every
definition evaluates on concrete inputs inside the kernel. All string data
handled by the checked properties is ASCII, where these agree with the
Python and pandas operations they model.
-/

namespace PermitDashboard

/-- Upper-case a string character by character, as pandas
`Series.str.upper` / Python `str.upper` do on ASCII data. -/
def strUpper (s : String) : String := ⟨s.data.map Char.toUpper⟩

/-- `charsStartWith pat cs` is true when `pat` is an initial segment of
`cs`; the character-level core of Python `str.startswith`. -/
def charsStartWith : List Char → List Char → Bool
  | [], _ => true
  | _ :: _, [] => false
  | p :: ps, c :: cs => p == c && charsStartWith ps cs

/-- `charsContain pat cs` is true when `pat` occurs contiguously in `cs`;
the character-level core of Python `in` / pandas literal containment. -/
def charsContain (pat : List Char) : List Char → Bool
  | [] => pat.isEmpty
  | c :: cs => charsStartWith pat (c :: cs) || charsContain pat cs

/-- Python `s.startswith(pat)` / pandas `.str.startswith(pat)` on a
present value. -/
def strStartsWith (s pat : String) : Bool := charsStartWith pat.data s.data

/-- Literal (non-regex) containment: `pat in s`. -/
def strContainsLit (s pat : String) : Bool := charsContain pat.data s.data

/-- Strip leading and trailing whitespace, as Python `str.strip()`. -/
def strTrim (s : String) : String :=
  ⟨((s.data.dropWhile Char.isWhitespace).reverse.dropWhile Char.isWhitespace).reverse⟩

/-- One permit record (a row of the uploaded sheet). `none` is a missing
(NaN) cell. `createdDate` holds the result of
`pd.to_datetime(..., errors="coerce")` as an abstract timeline coordinate:
`none` when the cell was absent or failed to parse (NaT). `area` is the
derived `Area` column, `map_area` applied to Responsibility Areas;
`map_area` lives in `utils/helpers.py`, outside the embedded source, and no
checked property depends on its internal rules, so the embedding carries
its output as a field. -/
structure Record where
  permitNumber : Option Nat
  department : Option String
  responsibilityAreas : Option String
  workflowState : Option String
  createdDate : Option Int
  area : String
deriving DecidableEq, Repr

/-- `main.py` lines 254 and 381:
`df["Closed"] = df["Workflow State"].str.upper() == "CLOSED"`.
`.str.upper()` leaves a missing value NaN and `== "CLOSED"` maps NaN to
`False`. Note the code does not strip whitespace here. -/
def closedOf (ws : Option String) : Bool :=
  match ws with
  | some s => strUpper s == "CLOSED"
  | none => false

/-- `main.py` lines 371-378: the `Status` classification
`"PENDING CLOSURE"` / `"EXPIRED"` / `None` from
`str(x).strip().upper()`. A missing value stringifies to `"nan"` in the
Python lambda, which matches neither label, so `none ↦ none`. -/
def statusOf (ws : Option String) : Option String :=
  match ws with
  | some s =>
    if strUpper (strTrim s) == "PENDING CLOSURE" then some "PENDING CLOSURE"
    else if strUpper (strTrim s) == "EXPIRED" then some "EXPIRED"
    else none
  | none => none

/-- One conjunct pair of `main.py` lines 268-271 / 280-283:
`(df["Created Date"] >= start) & (df["Created Date"] <= end)`. Both
comparisons are `False` on NaT, so an unparseable date is dropped. -/
def dateKeep (start finish : Int) (d : Option Int) : Bool :=
  match d with
  | some t => decide (start ≤ t) && decide (t ≤ finish)
  | none => false

/-- The date-range row filter of `main.py` lines 268-271 and 280-283. -/
def dateFilter (start finish : Int) (rs : List Record) : List Record :=
  rs.filter (fun r => dateKeep start finish r.createdDate)

/-- `Series.isin(departments)` on the Department column: exact,
case-sensitive equality with one of the selected values; NaN is in no
selection. -/
def deptIsin (sel : List String) (d : Option String) : Bool :=
  match d with
  | some s => sel.contains s
  | none => false

/-- `main.py` lines 303-304: `if departments:` guards the filter, so an
empty selection leaves the working subset unchanged. -/
def deptFilter (sel : List String) (rs : List Record) : List Record :=
  if sel.isEmpty then rs else rs.filter (fun r => deptIsin sel r.department)

/-- `main.py` line 360: the fixed canonical department column list. -/
def dept_cols : List String :=
  ["CES ELECTRICAL", "CIVIL", "FIRE", "HSEF", "INSTRUMENTATION", "MECHANICAL", "PROCESS"]

/-- `main.py` line 406: the column set the TOTAL row sums over,
`dept_cols + ["EXPIRED", "PENDING CLOSURE", "CLOSED"]`; also the option
list of the column multiselect (line 411). -/
def allColumns : List String := dept_cols ++ ["EXPIRED", "PENDING CLOSURE", "CLOSED"]

/-- The Department column after `main.py` line 365,
`filtered_df["Department"].str.upper()`. -/
def deptUpper (d : Option String) : Option String := d.map strUpper

/-- One cell of the pivot of `main.py` lines 385-392:
`pd.pivot_table(..., values="Permit Number", aggfunc="count")` counts the
records of area `a` whose upper-cased Department is `c` and whose
`Permit Number` is not NaN (`count` skips missing values). -/
def pivotCell (rs : List Record) (a c : String) : Nat :=
  (rs.filter (fun r =>
    r.area == a && deptUpper r.department == some c && r.permitNumber.isSome)).length

/-- One cell of `status_counts` (`main.py` line 394): records of area `a`
classified with status `s`. -/
def statusCount (rs : List Record) (a s : String) : Nat :=
  (rs.filter (fun r => r.area == a && statusOf r.workflowState == some s)).length

/-- One cell of `closed_counts` (`main.py` line 382): records of area `a`
with `Closed` true. -/
def closedCount (rs : List Record) (a : String) : Nat :=
  (rs.filter (fun r => r.area == a && closedOf r.workflowState)).length

/-- The numeric cell of `final_table` at row (area) `a` and column `c`,
after the joins and `fillna(0)` of `main.py` lines 397-404. -/
def cellValue (rs : List Record) (a c : String) : Nat :=
  if dept_cols.contains c then pivotCell rs a c
  else if c == "EXPIRED" then statusCount rs a "EXPIRED"
  else if c == "PENDING CLOSURE" then statusCount rs a "PENDING CLOSURE"
  else if c == "CLOSED" then closedCount rs a
  else 0

/-- The row index of `final_table`: the distinct Area values of the
working subset (every record has an Area; the index order is immaterial to
the checked properties). -/
def ftAreas (rs : List Record) : List String := (rs.map (·.area)).dedup

/-- `main.py` line 406: `total_row = final_table[allColumns].sum()` —
the column-wise sum over the area rows, computed before the column
multiselect is applied. -/
def totalCell (rs : List Record) (c : String) : Nat :=
  ((ftAreas rs).map (fun a => cellValue rs a c)).sum

/-- `main.py` lines 406-419: the displayed summary table — one labelled
row per area restricted to the selected columns (line 418 keeps the area
label first), then the TOTAL row appended by line 408. -/
def displayRows (rs : List Record) (sel : List String) : List (String × List Nat) :=
  ((ftAreas rs).map (fun a => (a, sel.map (cellValue rs a)))) ++
    [("TOTAL", sel.map (totalCell rs))]

/-- `.str.startswith(p, na=False)`: `False` on a missing value. -/
def optStartsWith (ra : Option String) (p : String) : Bool :=
  match ra with
  | some s => strStartsWith s p
  | none => false

/-- Literal containment lifted to an optional cell, `False` on missing. -/
def optContainsLit (ra : Option String) (pat : String) : Bool :=
  match ra with
  | some s => strContainsLit s pat
  | none => false

/-- `.str.contains(pat, case=False, na=False)` for a pattern free of
regex metacharacters (all twelve plant names are): case-insensitive
substring containment, `False` on missing. -/
def optContainsCI (ra : Option String) (pat : String) : Bool :=
  match ra with
  | some s => strContainsLit (strUpper s) (strUpper pat)
  | none => false

/-- `main.py` line 454 calls
`.str.contains("CCR(Safety District-2)", na=False)` with the default
`regex=True`, so pandas compiles the pattern as a regular expression in
which the parentheses delimit a group. That regex matches exactly the
strings containing the literal text `CCRSafety District-2` — not the
strings containing `CCR(Safety District-2)` with its parentheses. -/
def ncuRegexEquivalent : String := "CCRSafety District-2"

/-- The per-record plant rule of `main.py` lines 442-463: special cases
for CPP (CPP or Power Plant start), NCU (NCU start, CCR start, or the
regex of `ncuRegexEquivalent`), PP (PP start only), and the default
case-insensitive containment of the plant name; `na=False` throughout. -/
def plantKeep (plant : String) (ra : Option String) : Bool :=
  if plant == "CPP" then
    optStartsWith ra "CPP" || optStartsWith ra "Power Plant"
  else if plant == "NCU" then
    optStartsWith ra "NCU" || optStartsWith ra "CCR" || optContainsLit ra ncuRegexEquivalent
  else if plant == "PP" then
    optStartsWith ra "PP"
  else
    optContainsCI ra plant

/-- The plantwise row filter producing `plant_df` in `main.py`
lines 442-463 (the subsequent `Area` relabelling does not change which
records are included). -/
def plantFilter (plant : String) (rs : List Record) : List Record :=
  rs.filter (fun r => plantKeep plant r.responsibilityAreas)

/-- One entry of the user store `USERS` (`main.py` lines 23-29):
display name, hex digest of the password, and role. -/
structure UserRec where
  name : String
  password_hash : String
  role : String
deriving DecidableEq, Repr

/-- The session authentication state `st.session_state.auth`
(`main.py` lines 40-49). -/
structure AuthState where
  authenticated : Bool
  username : Option String
  failed_attempts : Nat
  is_admin : Bool
  show_register : Bool
  user_added : Bool
  user_removed : Bool
deriving DecidableEq, Repr

/-- How one `authenticate` call ends: `st.rerun()` after success, the
`st.stop()` halt after the third failure, or the invalid-credentials
message. -/
inductive AuthOutcome where
  | rerun
  | halted
  | invalidMessage
deriving DecidableEq, Repr

/-- The user store as an association list preserving insertion order
(Python dict); `lookupUser` is `USERS.get(username)`. -/
def lookupUser (users : List (String × UserRec)) (u : String) : Option UserRec :=
  (users.find? (fun p => p.1 == u)).map (·.2)

/-- The `else` branch of `authenticate` (`main.py` lines 98-103):
increment `failed_attempts`; at three or more, show the lockout error and
`st.stop()`; otherwise show the invalid-credentials error. The rest of the
session state is kept. -/
def authFail (st : AuthState) : AuthState × AuthOutcome :=
  let st2 := { st with failed_attempts := st.failed_attempts + 1 }
  if 3 ≤ st2.failed_attempts then (st2, AuthOutcome.halted)
  else (st2, AuthOutcome.invalidMessage)

/-- `authenticate` (`main.py` lines 84-103). The SHA-256 digest is an
external library call, so the digest function is a parameter: the code
compares `user["password_hash"]` with `hash(password)` and on success
replaces the whole session state (authenticated, counter reset to 0,
admin flag from the stored role) before `st.rerun()`. -/
def authenticate (hash : String → String) (users : List (String × UserRec))
    (st : AuthState) (username password : String) : AuthState × AuthOutcome :=
  match lookupUser users username with
  | some user =>
    if user.password_hash == hash password then
      ({ authenticated := true, username := some username, failed_attempts := 0,
         is_admin := user.role == "admin", show_register := false,
         user_added := false, user_removed := false }, AuthOutcome.rerun)
    else authFail st
  | none => authFail st

/-- `register_user` (`main.py` lines 51-66) without the UI flag side
effect: duplicate check first, then the emptiness check on username and
password (Python falsiness of the empty string); on success the new entry
is appended to the store and saved. Returns ((success, message), the store
after the call). -/
def register_user (hash : String → String) (users : List (String × UserRec))
    (username name password role : String) :
    (Bool × String) × List (String × UserRec) :=
  if (lookupUser users username).isSome then
    ((false, "Username already exists!"), users)
  else if username == "" || password == "" then
    ((false, "Username and password are required!"), users)
  else
    ((true, "User " ++ username ++ " registered successfully!"),
      users ++ [(username, { name := name, password_hash := hash password, role := role })])

/-- A stand-in digest function for concrete instantiations: the embedding
keeps the digest abstract (SHA-256 is an external library call), so any
concrete function may play its part. -/
def exHash (s : String) : String := "digest:" ++ s

/-- The seeded admin account of `load_users` (`main.py` lines 23-29),
with its password digest taken under `exHash`. -/
def exAdmin : UserRec :=
  { name := "Administrator", password_hash := exHash "admin123", role := "admin" }

/-- A one-user store holding the seeded admin account. -/
def exUsers : List (String × UserRec) := [("admin", exAdmin)]

/-- A fresh session state as initialised in `main.py` lines 40-49. -/
def initialAuth : AuthState :=
  { authenticated := false, username := none, failed_attempts := 0,
    is_admin := false, show_register := false, user_added := false,
    user_removed := false }

/-- A session whose failed-login counter has reached 3. -/
def lockedAuth : AuthState := { initialAuth with failed_attempts := 3 }

/-- A session with an even larger accumulated failure count. -/
def staleAuth : AuthState := { initialAuth with failed_attempts := 5 }

/-- A record whose Responsibility Areas cell is missing (NaN). -/
def recNoRA : Record :=
  { permitNumber := some 1, department := some "FIRE", responsibilityAreas := none,
    workflowState := some "Open", createdDate := some 0, area := "OTHERS" }

/-- A Responsibility Areas value that contains the literal text
`CCR(Safety District-2)` but starts with neither `NCU` nor `CCR`. -/
def c1Str : String := "Near CCR(Safety District-2)"

/-- A record carrying `c1Str` as its Responsibility Areas. -/
def recC1 : Record :=
  { permitNumber := some 2, department := some "CIVIL", responsibilityAreas := some c1Str,
    workflowState := some "Open", createdDate := some 0, area := "NCU" }

/-- A record whose Responsibility Areas contains the text the compiled
regex of `main.py` line 454 actually matches. -/
def recRegexRA : Record :=
  { permitNumber := some 3, department := some "FIRE",
    responsibilityAreas := some "XX CCRSafety District-2 YY",
    workflowState := some "Open", createdDate := some 0, area := "NCU" }

/-- A record with area `X`, Department `civil` and a missing Permit
Number cell. -/
def recNoPermit : Record :=
  { permitNumber := none, department := some "civil",
    responsibilityAreas := some "NCU-1", workflowState := some "Open",
    createdDate := some 0, area := "X" }

/-- A record with area `X`, Department `MECHANICAL` and a present Permit
Number. -/
def recWithPermit : Record :=
  { permitNumber := some 2, department := some "MECHANICAL",
    responsibilityAreas := some "NCU-2", workflowState := some "Closed",
    createdDate := some 1, area := "X" }

/-- A two-record working subset over the single area `X`. -/
def exRecords : List Record := [recNoPermit, recWithPermit]

/-- Reading position `i` of a mapped list with `i` in bounds gives the
function applied to the entry at `i`. -/
theorem getD_map_of_lt {α β : Type} (f : α → β) (l : List α) (d : β) (i : Nat)
    (h : i < l.length) : (l.map f).getD i d = f (l.get ⟨i, h⟩) := by
  rw [List.getD_eq_getElem?_getD, List.getElem?_eq_getElem (by simpa using h),
    Option.getD_some, List.getElem_map]
  rfl

/-- C1, counterexample: the Responsibility Areas value
`Near CCR(Safety District-2)` contains the literal substring
`CCR(Safety District-2)` and starts with neither `NCU` nor `CCR`, yet
selecting plant `NCU` produces an empty plant summary from a working
subset holding exactly that record: `str.contains` compiles its pattern as
a regex, so the literal parentheses are not matched. -/
theorem c1_ncu_literal_counterexample :
    recC1.responsibilityAreas = some c1Str ∧
    strContainsLit c1Str "CCR(Safety District-2)" = true ∧
    strStartsWith c1Str "NCU" = false ∧
    strStartsWith c1Str "CCR" = false ∧
    plantFilter "NCU" [recC1] = [] := by decide

/-- C1, amended: for a record whose Responsibility Areas starts with
neither `NCU` nor `CCR`, selecting plant `NCU` includes it in the plant
summary exactly when the value contains the text `CCRSafety District-2` —
the language of the regular expression that `main.py` line 454 compiles
from `CCR(Safety District-2)` — not the literal pattern text. -/
theorem c1_ncu_regex_amended (rs : List Record) (r : Record) (s : String)
    (hra : r.responsibilityAreas = some s)
    (h1 : strStartsWith s "NCU" = false) (h2 : strStartsWith s "CCR" = false) :
    r ∈ plantFilter "NCU" rs ↔ r ∈ rs ∧ strContainsLit s ncuRegexEquivalent = true := by
  simp only [plantFilter, List.mem_filter]
  simp +decide [plantKeep, hra, optStartsWith, optContainsLit, h1, h2]

/-- C1, witness: the amended statement applied to a concrete record whose
Responsibility Areas is `XX CCRSafety District-2 YY`. -/
theorem c1_ncu_regex_witness :
    recRegexRA ∈ plantFilter "NCU" [recRegexRA] ↔
      recRegexRA ∈ [recRegexRA] ∧
      strContainsLit "XX CCRSafety District-2 YY" ncuRegexEquivalent = true :=
  c1_ncu_regex_amended [recRegexRA] recRegexRA "XX CCRSafety District-2 YY"
    rfl (by decide) (by decide)

/-- C2, counterexample: a Workflow State of `" closed "` trims and
upper-cases to `CLOSED`, yet the derived `Closed` field is false — the
code upper-cases but never trims. -/
theorem c2_closed_counterexample :
    closedOf (some " closed ") = false ∧ strUpper (strTrim " closed ") = "CLOSED" := by
  decide

/-- C2, amended: `Closed` is true exactly when the Workflow State is
present and upper-cases — without any trimming — to `CLOSED`; surrounding
whitespace therefore makes `Closed` false. -/
theorem c2_closed_amended (ws : Option String) :
    closedOf ws = true ↔ ∃ s, ws = some s ∧ strUpper s = "CLOSED" := by
  cases ws <;> simp [closedOf]

/-- C5, confirmed: the date filter keeps exactly the records of the
working set whose parsed Created Date lies between the bounds, both ends
inclusive, and drops every record whose Created Date failed to parse
(`none`). -/
theorem c5_date_filter (start finish : Int) (rs : List Record) (r : Record) :
    r ∈ dateFilter start finish rs ↔
      r ∈ rs ∧ ∃ d, r.createdDate = some d ∧ start ≤ d ∧ d ≤ finish := by
  simp only [dateFilter, List.mem_filter]
  cases hd : r.createdDate with
  | none => simp [dateKeep, hd]
  | some d => simp [dateKeep, hd, and_assoc]

/-- C6, confirmed: an empty department selection leaves the working
subset unchanged, and a non-empty selection keeps exactly the records
whose Department is present and equals (exactly, case-sensitively) one of
the selected values. -/
theorem c6_dept_filter (sel : List String) (rs : List Record) :
    (sel = [] → deptFilter sel rs = rs) ∧
    (sel ≠ [] → ∀ r, (r ∈ deptFilter sel rs ↔
      r ∈ rs ∧ ∃ d, r.department = some d ∧ d ∈ sel)) := by
  constructor
  · intro h
    simp [deptFilter, h]
  · intro h r
    have hne : sel.isEmpty = false := by simpa [List.isEmpty_iff] using h
    simp only [deptFilter, hne, Bool.false_eq_true, if_false, List.mem_filter]
    cases hd : r.department with
    | none => simp [deptIsin, hd]
    | some d => simp [deptIsin, hd]

/-- C3, confirmed: for every working subset and every column subset
chosen for display, the displayed summary table ends with the TOTAL row,
and each of its displayed cells equals the sum of that column over the
non-TOTAL rows of the same displayed table. -/
theorem c3_total_row (rs : List Record) (sel : List String) (i : Nat)
    (h : i < sel.length) :
    (displayRows rs sel).getLast? = some ("TOTAL", sel.map (totalCell rs)) ∧
    (sel.map (totalCell rs)).getD i 0 =
      (((displayRows rs sel).dropLast).map (fun row => row.2.getD i 0)).sum := by
  constructor
  · exact List.getLast?_concat _
  · rw [displayRows, List.dropLast_concat, List.map_map,
      getD_map_of_lt (totalCell rs) sel 0 i h]
    simp only [totalCell]
    congr 1
    apply List.map_congr_left
    intro a _
    exact (getD_map_of_lt (cellValue rs a) sel 0 i h).symm

/-- C3, witness: the TOTAL-row property instantiated on the two-record
subset `exRecords` with the full column set displayed, at the first
displayed column. -/
theorem c3_total_row_witness :
    (displayRows exRecords allColumns).getLast? =
      some ("TOTAL", allColumns.map (totalCell exRecords)) ∧
    (allColumns.map (totalCell exRecords)).getD 0 0 =
      (((displayRows exRecords allColumns).dropLast).map
        (fun row => row.2.getD 0 0)).sum :=
  c3_total_row exRecords allColumns 0 (by decide)

/-- C4, counterexample: a session whose failed-login counter has reached
3 is not barred from authenticating — a subsequent call with correct
credentials still sets the session to authenticated, so further
interaction can succeed. -/
theorem c4_lockout_counterexample :
    lockedAuth.failed_attempts = 3 ∧
    (authenticate exHash exUsers lockedAuth "admin" "admin123").1.authenticated = true ∧
    (authenticate exHash exUsers lockedAuth "admin" "admin123").2 = AuthOutcome.rerun := by
  decide

/-- C4, amended: once the failed-login counter has reached 3, any further
attempt with non-matching credentials halts the session (the `st.stop`
branch) without authenticating and increments the counter; an attempt with
matching credentials, however, still authenticates (see C9), so the
lockout does not bar every subsequent interaction. -/
theorem c4_lockout_amended (hash : String → String) (users : List (String × UserRec))
    (st : AuthState) (u p : String) (h3 : 3 ≤ st.failed_attempts)
    (hbad : Option.all (fun user => user.password_hash != hash p) (lookupUser users u) = true) :
    (authenticate hash users st u p).2 = AuthOutcome.halted ∧
    (authenticate hash users st u p).1.authenticated = st.authenticated ∧
    (authenticate hash users st u p).1.failed_attempts = st.failed_attempts + 1 := by
  have h3' : 3 ≤ st.failed_attempts + 1 := Nat.le_succ_of_le h3
  cases hl : lookupUser users u with
  | none =>
    simp only [authenticate, hl, authFail]
    rw [if_pos h3']
    exact ⟨rfl, rfl, rfl⟩
  | some user =>
    rw [hl] at hbad
    have hne : (user.password_hash == hash p) = false := by
      simpa [Option.all, bne] using hbad
    simp only [authenticate, hl, hne, Bool.false_eq_true, if_false, authFail]
    rw [if_pos h3']
    exact ⟨rfl, rfl, rfl⟩

/-- C4, witness: the amended statement applied to the locked session
`lockedAuth` and a wrong password for the stored admin account. -/
theorem c4_lockout_witness :
    (authenticate exHash exUsers lockedAuth "admin" "wrongpw").2 = AuthOutcome.halted ∧
    (authenticate exHash exUsers lockedAuth "admin" "wrongpw").1.authenticated =
      lockedAuth.authenticated ∧
    (authenticate exHash exUsers lockedAuth "admin" "wrongpw").1.failed_attempts =
      lockedAuth.failed_attempts + 1 :=
  c4_lockout_amended exHash exUsers lockedAuth "admin" "wrongpw" (by decide) (by decide)

/-- C7, confirmed: `register_user` reports failure exactly when the
username already exists in the store, or the username is empty, or the
password is empty; on failure the store is returned unchanged (no write),
and on success the store grows by exactly the new entry. -/
theorem c7_register_user (hash : String → String) (users : List (String × UserRec))
    (u n p role : String) :
    ((register_user hash users u n p role).1.1 = false ↔
      ((lookupUser users u).isSome = true ∨ u = "" ∨ p = "")) ∧
    ((register_user hash users u n p role).1.1 = false →
      (register_user hash users u n p role).2 = users) ∧
    ((register_user hash users u n p role).1.1 = true →
      (register_user hash users u n p role).2 =
        users ++ [(u, { name := n, password_hash := hash p, role := role })]) := by
  by_cases h1 : (lookupUser users u).isSome = true
  · simp [register_user, h1]
  · by_cases h2 : u = ""
    · subst h2
      simp [register_user, h1]
    · by_cases h3 : p = ""
      · simp [register_user, h1, h2, h3]
      · simp [register_user, h1, h2, h3]

/-- C8, confirmed: a record whose Responsibility Areas cell is missing is
rejected by the plant rule for every selectable plant — each branch passes
`na=False`, mapping the missing value to `False` — so the record never
reaches the plant summary and no error is raised (the rule is total). -/
theorem c8_missing_area (plant : String) (rs : List Record) (r : Record)
    (h : r.responsibilityAreas = none) :
    plantKeep plant r.responsibilityAreas = false ∧
    decide (r ∈ plantFilter plant rs) = false := by
  have hk : plantKeep plant r.responsibilityAreas = false := by
    rw [h]
    simp [plantKeep, optStartsWith, optContainsLit, optContainsCI]
  refine ⟨hk, decide_eq_false ?_⟩
  intro hmem
  rw [plantFilter, List.mem_filter] at hmem
  rw [hmem.2] at hk
  exact Bool.true_eq_false.mp hk

/-- C8, witness: the missing-value exclusion applied to the record
`recNoRA` and plant `NCU`. -/
theorem c8_missing_area_witness :
    plantKeep "NCU" recNoRA.responsibilityAreas = false ∧
    decide (recNoRA ∈ plantFilter "NCU" [recNoRA]) = false :=
  c8_missing_area "NCU" [recNoRA] recNoRA rfl

/-- C9, confirmed: whatever the prior session state — in particular
whatever the failed-attempts counter holds — an `authenticate` call whose
digest of the supplied password equals the stored hash of the named user
replaces the session with an authenticated one and resets the counter
to 0. -/
theorem c9_auth_reset (hash : String → String) (users : List (String × UserRec))
    (st : AuthState) (u p : String) (user : UserRec)
    (hfind : lookupUser users u = some user)
    (hpw : user.password_hash = hash p) :
    (authenticate hash users st u p).1.authenticated = true ∧
    (authenticate hash users st u p).1.failed_attempts = 0 ∧
    (authenticate hash users st u p).1.username = some u := by
  simp only [authenticate, hfind]
  rw [if_pos (by simp [hpw])]
  exact ⟨rfl, rfl, rfl⟩

/-- C9, witness: the reset property applied to a session with five
accumulated failures and the stored admin credentials. -/
theorem c9_auth_reset_witness :
    (authenticate exHash exUsers staleAuth "admin" "admin123").1.authenticated = true ∧
    (authenticate exHash exUsers staleAuth "admin" "admin123").1.failed_attempts = 0 ∧
    (authenticate exHash exUsers staleAuth "admin" "admin123").1.username = some "admin" :=
  c9_auth_reset exHash exUsers staleAuth "admin" "admin123" exAdmin rfl rfl

/-- C10, counterexample: the record `recNoPermit` has Department `civil`,
which upper-cases to the canonical column `CIVIL`, and belongs to area
`X`, yet the pivot cell (`X`, `CIVIL`) counts 0 records: the `count`
aggregation over `Permit Number` skips its missing Permit Number cell, so
the record is not counted under the column, contrary to "counted
whenever". -/
theorem c10_pivot_counterexample :
    recNoPermit ∈ exRecords ∧
    recNoPermit.area = "X" ∧
    deptUpper recNoPermit.department = some "CIVIL" ∧
    pivotCell exRecords "X" "CIVIL" = 0 := by decide

/-- C10, amended: a record is counted under canonical department column
`c` of the pivot exactly when its Permit Number is present and its
Department upper-cases to `c` — so the column matching is case-insensitive
(unlike the case-sensitive department filter), but records with a missing
Permit Number are skipped by the `count` aggregation. -/
theorem c10_pivot_amended (rs : List Record) (a c : String) :
    pivotCell rs a c = rs.countP (fun r =>
      decide (r.area = a ∧ r.department.map strUpper = some c ∧
        r.permitNumber ≠ none)) := by
  rw [pivotCell, ← List.countP_eq_length_filter]
  apply List.countP_congr
  intro r _
  cases hd : r.department with
  | none => simp [deptUpper, hd]
  | some d => simp [deptUpper, hd, and_assoc, Option.isSome_iff_ne_none]

end PermitDashboard
